import Mathlib

/-!
Shallow embedding of the data-access layer of the stock-market dashboard
(frontend): the credential store backed by browser local storage, the
token-refreshing request pipeline of `ApiService` in `App.tsx`, the header
construction of `ApiService.request` in `services/api.ts` and in `App.tsx`,
and the quote-polling publish step of `StockList` (`loadQuotes`).

Conventions of the embedding:
- Local storage is a pair of optional strings (`access_token`, `refresh_token`).
- JS objects used as string maps (headers, the quote map) are association
  lists; assignment overwrites an existing key in place and otherwise appends,
  matching object-spread precedence (a later spread wins per key).
- A JS function that can throw is translated as an `Except JsError` value;
  a `try/catch` is translated as an explicit match on that value.
- The event loop is modelled at suspension-point granularity: the only
  suspension points are the network calls (`fetch` + the awaited `json()`),
  exactly as in the source.  Everything between two awaits runs atomically.
-/

namespace StockMarket

/-- The two persisted credential values in origin-scoped local storage:
the keys `access_token` and `refresh_token`. `none` means the key is absent. -/
structure Store where
  access : Option String
  refresh : Option String
deriving DecidableEq, Repr

/-- The empty credential store (both keys removed). -/
def Store.empty : Store := { access := none, refresh := none }

/-- Both tokens present or both absent: the credential-pair invariant. -/
def Store.consistent (s : Store) : Prop := s.access.isSome = s.refresh.isSome

instance (s : Store) : Decidable s.consistent := by
  unfold Store.consistent; infer_instance

/-- Assignment into a JS object viewed as a string-keyed map: overwrite the
key if present, otherwise append the binding. -/
def mset {α : Type} : List (String × α) → String → α → List (String × α)
  | [], k, v => [(k, v)]
  | (k₀, v₀) :: rest, k, v =>
      if k₀ = k then (k, v) :: rest else (k₀, v₀) :: mset rest k v

/-- Key lookup in a JS object viewed as a string-keyed map. -/
def mget {α : Type} : List (String × α) → String → Option α
  | [], _ => none
  | (k₀, v₀) :: rest, k => if k₀ = k then some v₀ else mget rest k

/-- Object spread `\x7b ...base, ...extra \x7d`: every binding of `extra` is
assigned over `base`, so a key of `extra` wins over the same key of `base`. -/
def spread {α : Type} (base extra : List (String × α)) : List (String × α) :=
  extra.foldl (fun acc kv => mset acc kv.1 kv.2) base

/-- A header list, JS-object style. -/
abbrev Headers := List (String × String)

/-- `...(token && \x7b Authorization: Bearer token \x7d)` — the conditional
bearer header attached when an access token is stored. -/
def authHeader : Option String → Headers
  | some t => [("Authorization", "Bearer " ++ t)]
  | none => []

/-- The headers object built by `ApiService.request` in `App.tsx` (lines
75-79): default content type, then the bearer header when a token is stored,
then the caller's headers, later spreads winning.  The issued `fetch` init is
`\x7b ...options, headers \x7d`, so this object is the one sent. -/
def appHeaders (token : Option String) (optionHeaders : Headers) : Headers :=
  spread (spread [("Content-Type", "application/json")] (authHeader token)) optionHeaders

/-- The headers of the `config` built by `ApiService.request` in
`services/api.ts` (lines 16-23): the merged headers object is written into the
`headers` field first, but `...options` is spread after it, so when the caller
supplied a `headers` field at all it replaces the merged object wholesale;
only when the caller supplied none does the merged object survive. -/
def apiTsConfigHeaders (token : Option String) (optionHeaders : Option Headers) : Headers :=
  let merged : Headers :=
    spread (spread [("Content-Type", "application/json")] (authHeader token))
      (optionHeaders.getD [])
  match optionHeaders with
  | some callerHeaders => callerHeaders
  | none => merged

/-- An opaque thrown JS value (a `TypeError`, a network failure, …). -/
inductive JsError where
  | thrown : JsError
deriving DecidableEq, Repr

/-- Outcome of the network exchange performed by `refreshToken` (`App.tsx`
lines 113-117): the `fetch` of `/auth/refresh` together with the awaited
response body.
- `transportError`: the `fetch` (or `json()`) rejects;
- `httpFail`: a response arrives with `response.ok` false;
- `okNoTokens`: `response.ok` but the body has no `data.tokens` object, so
  the field access `data.data.tokens.access_token` throws;
- `okTokens a r`: `response.ok` with both tokens in the body. -/
inductive RefreshOutcome where
  | transportError : RefreshOutcome
  | httpFail : RefreshOutcome
  | okNoTokens : RefreshOutcome
  | okTokens (access : String) (refresh : String) : RefreshOutcome
deriving DecidableEq, Repr

/-- The body of the `try` block of `refreshToken` (`App.tsx` lines 109-124).
`Except.error` is a throw (to be caught); `Except.ok (some (b, s))` is an
early `return b` leaving the store at `s`; `Except.ok none` means control
fell through the `if (response.ok)` block without returning. -/
def refreshTryBody (o : RefreshOutcome) (s : Store) :
    Except JsError (Option (Bool × Store)) :=
  match s.refresh with
  | none => Except.ok (some (false, s))
  | some _ =>
    match o with
    | RefreshOutcome.transportError => Except.error JsError.thrown
    | RefreshOutcome.httpFail => Except.ok none
    | RefreshOutcome.okNoTokens => Except.error JsError.thrown
    | RefreshOutcome.okTokens a r =>
        Except.ok (some (true, { access := some a, refresh := some r }))

/-- `ApiService.refreshToken` (`App.tsx` lines 108-133): the `try` body,
with the `catch` falling through — like a non-ok response — to the final
`removeItem` pair and `return false`. -/
def refreshToken (o : RefreshOutcome) (s : Store) : Bool × Store :=
  match refreshTryBody o s with
  | Except.ok (some result) => result
  | Except.ok none => (false, Store.empty)
  | Except.error _ => (false, Store.empty)

/-- What `refreshToken` does from the moment the `/auth/refresh` response is
delivered (the part after its one suspension point): on success write the new
pair and return true, on any failure clear the store and return false. -/
def refreshAfterFetch (o : RefreshOutcome) : Bool × Store :=
  match o with
  | RefreshOutcome.okTokens a r => (true, { access := some a, refresh := some r })
  | _ => (false, Store.empty)

/-! ## The request pipeline as an event-loop machine

`ApiService.request` (`App.tsx` lines 73-106) is modelled as a task state
machine.  A task is one call to `request`; its suspension points are the
endpoint fetch and the `/auth/refresh` fetch, so a task is always in one of
four phases.  The environment (the server plus the scheduler) drives the
machine by delivering events; everything a task runs between two suspension
points is folded into the event that resumes it. -/

/-- The resolution of one `request` call: the returned data, or a thrown
error (`throw new Error(data.message)` or a rethrown transport error). -/
inductive ReqResult where
  | success : ReqResult
  | failed : ReqResult
deriving DecidableEq, Repr

/-- Phase of one `request` task.
- `ready`: the call (or its recursive retry) is about to run up to its fetch;
- `fetching sentToken`: awaiting the endpoint response; `sentToken` is the
  access token read from storage when the fetch was issued;
- `refreshing`: awaiting the `/auth/refresh` response inside `refreshToken`;
- `done r`: the call resolved. -/
inductive Phase where
  | ready : Phase
  | fetching (sentToken : Option String) : Phase
  | refreshing : Phase
  | done (r : ReqResult) : Phase
deriving DecidableEq, Repr

/-- Global state of the event loop: the credential store, the phase of every
task, and a counter of `/auth/refresh` fetches issued so far. -/
structure Sys where
  store : Store
  tasks : List Phase
  refreshCalls : Nat
deriving DecidableEq, Repr

/-- Events delivered by the environment.
- `issue i`: task `i` (in `ready`) runs to its fetch: it reads the access
  token and sends the endpoint request;
- `respond i status`: the endpoint response for task `i` arrives with the
  given HTTP status, and the task runs to its next suspension point or end;
- `respondError i`: the endpoint fetch of task `i` rejects (transport error);
- `refreshResolve i o`: the `/auth/refresh` exchange of task `i` resolves
  with outcome `o`, and the task runs on. -/
inductive Event where
  | issue (i : Nat) : Event
  | respond (i : Nat) (status : Nat) : Event
  | respondError (i : Nat) : Event
  | refreshResolve (i : Nat) (o : RefreshOutcome) : Event
deriving DecidableEq, Repr

/-- One step of the event loop.  The 401 branch mirrors `App.tsx` lines
89-98: on a non-ok response, refresh is attempted only when the status is 401
and a token had been attached; `refreshToken` first synchronously checks for
a stored refresh token (returning false at once when absent, so the task
fails without any refresh fetch), otherwise the refresh fetch is issued and
counted.  On `refreshResolve`, a successful refresh re-enters `request`
(`return this.request(endpoint, options)`), a failed one leaves the task
throwing `Error(data.message)`.  Events that do not match the addressed
task's phase are no-ops. -/
def step (s : Sys) (e : Event) : Sys :=
  match e with
  | Event.issue i =>
    match s.tasks[i]? with
    | some Phase.ready =>
        { s with tasks := s.tasks.set i (Phase.fetching s.store.access) }
    | _ => s
  | Event.respond i status =>
    match s.tasks[i]? with
    | some (Phase.fetching sentToken) =>
        if 200 ≤ status ∧ status < 300 then
          { s with tasks := s.tasks.set i (Phase.done ReqResult.success) }
        else if status = 401 ∧ sentToken.isSome then
          match s.store.refresh with
          | none => { s with tasks := s.tasks.set i (Phase.done ReqResult.failed) }
          | some _ =>
              { s with tasks := s.tasks.set i Phase.refreshing,
                       refreshCalls := s.refreshCalls + 1 }
        else
          { s with tasks := s.tasks.set i (Phase.done ReqResult.failed) }
    | _ => s
  | Event.respondError i =>
    match s.tasks[i]? with
    | some (Phase.fetching _) =>
        { s with tasks := s.tasks.set i (Phase.done ReqResult.failed) }
    | _ => s
  | Event.refreshResolve i o =>
    match s.tasks[i]? with
    | some Phase.refreshing =>
        match refreshAfterFetch o with
        | (true, s₂) => { s with store := s₂, tasks := s.tasks.set i Phase.ready }
        | (false, s₂) =>
            { s with store := s₂,
                     tasks := s.tasks.set i (Phase.done ReqResult.failed) }
    | _ => s

/-- Run a sequence of events. -/
def run (s : Sys) (es : List Event) : Sys := es.foldl step s

/-- Initial state: `n` fresh concurrent `request` calls over one store. -/
def initSys (n : Nat) (s : Store) : Sys :=
  { store := s, tasks := List.replicate n Phase.ready, refreshCalls := 0 }

/-! ## The quote poller (`StockList.loadQuotes`)

`loadQuotes` (`App.tsx` lines 371-391, `StockList.tsx` lines 42-65) maps
every watched symbol to a task that fetches its quote and converts a failure
to `null` via its own `try/catch`, awaits them all, collects the non-null
results into a fresh object, and publishes that object with `setQuotes`. -/

/-- The per-symbol tasks built by `stocks.map(...)`: a fetch outcome is
converted to `null` (`none`) by the per-symbol `try/catch`, so the awaited
batch is a list of optional entries and never itself rejects. -/
def batchResults {Q : Type} (stocks : List String)
    (fetch : String → Except JsError Q) : List (Option (String × Q)) :=
  stocks.map (fun sym =>
    match fetch sym with
    | Except.ok q => some (sym, q)
    | Except.error _ => none)

/-- The `newQuotes` object: `results.forEach`, assigning each non-null
entry into an initially empty object. -/
def collectQuotes {Q : Type} (results : List (Option (String × Q))) :
    List (String × Q) :=
  results.foldl
    (fun acc r =>
      match r with
      | some (sym, q) => mset acc sym q
      | none => acc) []

/-- One poll tick's publish: `setQuotes(newQuotes)` replaces the published
map with the freshly collected object.  The previous snapshot `prev` is what
`setQuotes` overwrites; the source never reads it while building `newQuotes`. -/
def tickPublish {Q : Type} (prev : List (String × Q)) (stocks : List String)
    (fetch : String → Except JsError Q) : List (String × Q) :=
  collectQuotes (batchResults stocks fetch)

/-- The per-symbol fetch outcome as the `try/catch` of the per-symbol task
sees it: `some` on success, `none` when the failure was caught. -/
def fetchToOption {Q : Type} (fetch : String → Except JsError Q) (sym : String) :
    Option Q :=
  match fetch sym with
  | Except.ok q => some q
  | Except.error _ => none

/-! ## The polling lifecycle (`StockList` quote effect)

The effect at `App.tsx` lines 352-358 starts `loadQuotes` on an interval and
its cleanup runs `clearInterval`.  `clearInterval` only prevents further
ticks; a `loadQuotes` call already awaiting its batch is not cancelled, and
its continuation calls `setQuotes` unconditionally — there is no liveness
flag or generation counter checked before publishing. -/

/-- Poller state: the published quote map, whether the interval is still
installed, and the batches currently awaited in flight (each remembers the
stocks snapshot it was started with). -/
structure Poller (Q : Type) where
  published : List (String × Q)
  running : Bool
  inFlight : List (List String)
deriving DecidableEq, Repr

/-- Poller events: a timer tick (starts a batch only while the interval is
installed), the effect cleanup (`clearInterval`), and the completion of the
`j`-th in-flight batch with a given per-symbol fetch outcome. -/
inductive PollerEvent (Q : Type) where
  | tick (stocks : List String) : PollerEvent Q
  | stop : PollerEvent Q
  | deliver (j : Nat) (fetch : String → Except JsError Q) : PollerEvent Q

/-- One poller step.  `stop` clears the interval but leaves in-flight batches
pending, and a delivered batch publishes unconditionally — exactly the
source, whose `loadQuotes` continuation has no cancellation check. -/
def pollerStep {Q : Type} (p : Poller Q) (e : PollerEvent Q) : Poller Q :=
  match e with
  | PollerEvent.tick stocks =>
      if p.running then { p with inFlight := p.inFlight ++ [stocks] } else p
  | PollerEvent.stop => { p with running := false }
  | PollerEvent.deliver j fetch =>
      match p.inFlight[j]? with
      | some stocks =>
          { p with published := tickPublish p.published stocks fetch,
                   inFlight := p.inFlight.eraseIdx j }
      | none => p

/-- Run a sequence of poller events. -/
def pollerRun {Q : Type} (p : Poller Q) (es : List (PollerEvent Q)) : Poller Q :=
  es.foldl pollerStep p

/-! ## Credential-mutating operations outside the pipeline -/

/-- `login`/`register` (`App.tsx` lines 141-142 and 153-154) and the login
form (`unnamed/part_000` lines 24-25): on success both tokens are written
together. -/
def loginStore (a r : String) : Store := { access := some a, refresh := some r }

/-- `handleLogout` (`App.tsx` lines 854-855) and the failed auth check
(`App.tsx` lines 842-843): both tokens are removed together. -/
def logoutStore : Store := Store.empty

/-! ## Concrete witnesses used by the theorems -/

/-- A store holding an expired-but-present credential pair. -/
def demoStore : Store := { access := some "expired", refresh := some "r0" }

/-- A per-symbol fetch in which symbol `A` succeeds and every other symbol's
fetch fails. -/
def demoFetch : String → Except JsError Int :=
  fun sym => if sym = "A" then Except.ok 7 else Except.error JsError.thrown

/-- A per-symbol fetch in which every symbol's fetch fails. -/
def failFetch : String → Except JsError Int :=
  fun _ => Except.error JsError.thrown

/-- A per-symbol fetch in which every symbol's fetch succeeds with value 2. -/
def okFetch : String → Except JsError Int := fun _ => Except.ok 2

/-- A poller that was running with one published entry and one batch still
in flight. -/
def pendingPoller : Poller Int :=
  { published := [("A", 1)], running := true, inFlight := [["A"]] }

/-- Two concurrent calls, both sent with the same expired access token; the
first has already received its 401 and started its own refresh, which is
still in flight. -/
def twoInFlight : Sys :=
  run (initSys 2 demoStore) [Event.issue 0, Event.issue 1, Event.respond 0 401]

/-- A call in flight with an access token attached while no refresh token is
stored. -/
def orphanAccessSys : Sys :=
  { store := { access := some "stale", refresh := none },
    tasks := [Phase.fetching (some "stale")],
    refreshCalls := 0 }

/-! ## Helper lemmas -/

/-- `refreshToken` splits into its synchronous guard (no stored refresh
token: return false at once, store untouched) and the post-fetch step. -/
theorem refreshToken_split (o : RefreshOutcome) (s : Store) :
    refreshToken o s =
      match s.refresh with
      | none => (false, s)
      | some _ => refreshAfterFetch o := by
  cases s with
  | mk a r =>
    cases r <;> cases o <;> rfl

/-- Lookup after `List.set` at the written index, when the index is in
range. -/
theorem lookup_set_self {α : Type} (l : List α) (i : Nat) (a b : α)
    (h : l[i]? = some b) : (l.set i a)[i]? = some a := by
  rw [List.getElem?_set_self', h]; rfl

/-- The post-fetch step of a refresh leaves a consistent pair: the new pair
on success, the empty store otherwise. -/
theorem consistent_refreshAfterFetch (o : RefreshOutcome) :
    Store.consistent (refreshAfterFetch o).2 := by
  cases o <;> rfl

/-- The only event-loop step that touches the credential store is the
resolution of a refresh, and it writes what `refreshAfterFetch` produces. -/
theorem step_store_cases (sys : Sys) (e : Event) :
    (step sys e).store = sys.store ∨
    ∃ o, (step sys e).store = (refreshAfterFetch o).2 := by
  cases e with
  | issue i =>
      left
      cases htask : sys.tasks[i]? with
      | none => simp [step, htask]
      | some ph => cases ph <;> simp [step, htask]
  | respond i status =>
      left
      cases htask : sys.tasks[i]? with
      | none => simp [step, htask]
      | some ph =>
          cases ph with
          | ready => simp [step, htask]
          | refreshing => simp [step, htask]
          | done r => simp [step, htask]
          | fetching tk =>
              by_cases h₁ : 200 ≤ status ∧ status < 300
              · simp [step, htask, h₁]
              · by_cases h₂ : status = 401 ∧ tk.isSome
                · cases hr : sys.store.refresh with
                  | none => simp [step, htask, h₁, h₂, hr]
                  | some rt => simp [step, htask, h₁, h₂, hr]
                · simp [step, htask, h₁, h₂]
  | respondError i =>
      left
      cases htask : sys.tasks[i]? with
      | none => simp [step, htask]
      | some ph => cases ph <;> simp [step, htask]
  | refreshResolve i o =>
      cases htask : sys.tasks[i]? with
      | none => left; simp [step, htask]
      | some ph =>
          cases ph with
          | ready => left; simp [step, htask]
          | fetching tk => left; simp [step, htask]
          | done r => left; simp [step, htask]
          | refreshing =>
              right
              refine ⟨o, ?_⟩
              cases hra : refreshAfterFetch o with
              | mk b s₂ => cases b <;> simp [step, htask, hra]

/-- Lookup after assignment: the assigned key reads the new value, any other
key is untouched. -/
theorem mget_mset {α : Type} (l : List (String × α)) (k k₂ : String) (v : α) :
    mget (mset l k v) k₂ = if k = k₂ then some v else mget l k₂ := by
  induction l with
  | nil => by_cases h : k = k₂ <;> simp [mset, mget, h]
  | cons hd tl ih =>
      obtain ⟨k₀, v₀⟩ := hd
      by_cases h : k₀ = k
      · subst h
        by_cases h₂ : k₀ = k₂ <;> simp [mset, mget, h₂]
      · by_cases h₂ : k₀ = k₂
        · subst h₂
          have hk : ¬k = k₀ := fun hh => h hh.symm
          simp [mset, mget, h, hk]
        · simp [mset, mget, h, h₂, ih]

/-- Lookup in the object folded from a batch: a symbol reads its fresh value
when it is in the batch and its fetch succeeded, and otherwise reads whatever
the accumulator held. -/
theorem mget_collect_batch {Q : Type} (stocks : List String)
    (fetch : String → Except JsError Q) (acc : List (String × Q)) (sym : String) :
    mget ((batchResults stocks fetch).foldl
        (fun a r =>
          match r with
          | some (s, q) => mset a s q
          | none => a) acc) sym
      = match fetchToOption fetch sym with
        | some q => if sym ∈ stocks then some q else mget acc sym
        | none => mget acc sym := by
  induction stocks generalizing acc with
  | nil => cases h : fetchToOption fetch sym <;> simp [batchResults, h]
  | cons s rest ih =>
      have hcons : batchResults (s :: rest) fetch =
          (match fetch s with
           | Except.ok q => some (s, q)
           | Except.error _ => none) :: batchResults rest fetch := rfl
      rw [hcons]
      by_cases hs : s = sym
      · subst hs
        cases hf : fetch s with
        | ok q =>
            simp only [List.foldl_cons]
            rw [ih]
            simp [fetchToOption, hf, mget_mset]
        | error e =>
            simp only [List.foldl_cons]
            rw [ih]
            simp [fetchToOption, hf]
      · have hs₂ : ¬sym = s := fun hh => hs hh.symm
        cases hf : fetch s with
        | ok q =>
            simp only [List.foldl_cons]
            rw [ih]
            cases hsym : fetchToOption fetch sym <;>
              simp [hsym, mget_mset, hs, hs₂, List.mem_cons]
        | error e =>
            simp only [List.foldl_cons]
            rw [ih]
            cases hsym : fetchToOption fetch sym <;>
              simp [hsym, hs, hs₂, List.mem_cons]

/-- Lookup in a published tick: exactly the successes of this tick are
present; the previous snapshot contributes nothing. -/
theorem mget_tickPublish {Q : Type} (prev : List (String × Q)) (stocks : List String)
    (fetch : String → Except JsError Q) (sym : String) :
    mget (tickPublish prev stocks fetch) sym =
      if sym ∈ stocks then fetchToOption fetch sym else none := by
  unfold tickPublish collectQuotes
  rw [mget_collect_batch]
  cases h : fetchToOption fetch sym <;>
    by_cases hm : sym ∈ stocks <;> simp [h, hm, mget]

/-! ## Claim theorems -/

/-- C3 (counterexample): the claim says a symbol whose fetch failed this tick
keeps its last known value, and that a tick in which every fetch fails leaves
the published map unchanged.  With previous snapshot `[(B, 5)]`, watchset
`[B]` and every fetch failing, the code publishes the empty map: `B` loses
its last known value and the map does change. -/
theorem tick_merge_counterexample :
    tickPublish (Q := Int) [("B", 5)] ["B"] failFetch = [] ∧
    mget (tickPublish (Q := Int) [("B", 5)] ["B"] failFetch) "B" = none ∧
    ¬tickPublish (Q := Int) [("B", 5)] ["B"] failFetch = [("B", 5)] := by
  decide

/-- C3 (amended): the published quote map after a tick equals exactly the
tick's successful entries — the previous snapshot is discarded, a symbol
whose fetch failed this tick disappears, and a tick in which every fetch
fails publishes the empty map. -/
theorem tickPublish_replaces_snapshot {Q : Type} (prev : List (String × Q))
    (stocks : List String) (fetch : String → Except JsError Q) (sym : String) :
    mget (tickPublish prev stocks fetch) sym =
      (if sym ∈ stocks then fetchToOption fetch sym else none) ∧
    tickPublish prev stocks fetch = tickPublish [] stocks fetch :=
  ⟨mget_tickPublish prev stocks fetch sym, rfl⟩

/-- Witness for `tickPublish_replaces_snapshot` at a concrete tick. -/
theorem tickPublish_replaces_snapshot_witness :
    mget (tickPublish (Q := Int) [("B", 5)] ["A"] demoFetch) "B" = none := by
  have h := tickPublish_replaces_snapshot (Q := Int) [("B", 5)] ["A"] demoFetch "B"
  rw [h.1]
  decide

/-- C7: an individual symbol's fetch failure is caught by the per-symbol
task and never poisons the batch: the awaited batch has one (possibly null)
entry per watched symbol, every symbol that succeeded appears in the
published snapshot with its fresh value, and if at least one symbol
succeeded the published snapshot is nonempty. -/
theorem per_symbol_failure_locality {Q : Type} (prev : List (String × Q))
    (stocks : List String) (fetch : String → Except JsError Q) (sym : String) (q : Q)
    (hmem : sym ∈ stocks) (hok : fetch sym = Except.ok q) :
    (batchResults stocks fetch).length = stocks.length ∧
    mget (tickPublish prev stocks fetch) sym = some q ∧
    tickPublish prev stocks fetch ≠ [] := by
  refine ⟨by simp [batchResults], ?_, ?_⟩
  · rw [mget_tickPublish]
    simp [hmem, fetchToOption, hok]
  · intro hempty
    have h := mget_tickPublish prev stocks fetch sym
    rw [hempty] at h
    simp [mget, hmem, fetchToOption, hok] at h

/-- Witness for `per_symbol_failure_locality`: symbol `A` succeeds while `B`
fails, and `A` is published. -/
theorem per_symbol_failure_locality_witness :
    (batchResults ["A", "B"] demoFetch).length = (["A", "B"] : List String).length ∧
    mget (tickPublish (Q := Int) [] ["A", "B"] demoFetch) "A" = some 7 ∧
    tickPublish (Q := Int) [] ["A", "B"] demoFetch ≠ [] :=
  per_symbol_failure_locality [] ["A", "B"] demoFetch "A" 7 (by decide) (by rfl)

/-- C4 (counterexample): the claim says no publish occurs after `stop`
returns and in-flight results are discarded.  With one batch in flight,
stopping and then letting the batch arrive overwrites the published snapshot. -/
theorem stop_publish_counterexample :
    (pollerRun pendingPoller [PollerEvent.stop, PollerEvent.deliver 0 okFetch]).published
      = [("A", 2)] ∧
    ¬(pollerRun pendingPoller [PollerEvent.stop, PollerEvent.deliver 0 okFetch]).published
      = [("A", 1)] := by
  decide

/-- C4 (amended): the effect cleanup (`clearInterval`) prevents any further
tick from starting a batch, but does not discard batches already in flight:
when such a batch's results arrive after the stop, they are still published
over the snapshot. -/
theorem stop_keeps_inflight_publishing {Q : Type} (p : Poller Q)
    (stocks stocksNew : List String) (j : Nat) (fetch : String → Except JsError Q)
    (hstopped : p.running = false) (hj : p.inFlight[j]? = some stocks) :
    pollerStep p (PollerEvent.tick stocksNew) = p ∧
    (pollerStep p (PollerEvent.deliver j fetch)).published =
      tickPublish p.published stocks fetch := by
  constructor
  · simp [pollerStep, hstopped]
  · simp [pollerStep, hj]

/-- Witness for `stop_keeps_inflight_publishing` on a concrete stopped
poller with one pending batch. -/
theorem stop_keeps_inflight_publishing_witness :
    pollerStep (Poller.mk [("A", (1 : Int))] false [["A"]]) (PollerEvent.tick ["C"]) =
      Poller.mk [("A", (1 : Int))] false [["A"]] ∧
    (pollerStep (Poller.mk [("A", (1 : Int))] false [["A"]])
        (PollerEvent.deliver 0 okFetch)).published =
      tickPublish [("A", (1 : Int))] ["A"] okFetch :=
  stop_keeps_inflight_publishing (Poller.mk [("A", (1 : Int))] false [["A"]])
    ["A"] ["C"] 0 okFetch rfl rfl

/-- C1 (counterexample): the claim says that for N concurrent calls that
each receive a 401 from the same expired credential, exactly one
`/auth/refresh` network call occurs.  Two concurrent calls are sent with the
same expired token; each 401 starts its own refresh: two `/auth/refresh`
calls, not one. -/
theorem single_flight_counterexample :
    (run (initSys 2 demoStore)
        [Event.issue 0, Event.issue 1,
         Event.respond 0 401, Event.respond 1 401]).refreshCalls = 2 ∧
    (run (initSys 2 demoStore)
        [Event.issue 0, Event.issue 1,
         Event.respond 0 401, Event.respond 1 401]).tasks =
      [Phase.refreshing, Phase.refreshing] ∧
    ¬(run (initSys 2 demoStore)
        [Event.issue 0, Event.issue 1,
         Event.respond 0 401, Event.respond 1 401]).refreshCalls = 1 := by
  decide

/-- C1 (amended): there is no single-flight sharing — every caller whose
request was sent with a token and comes back 401 while a refresh token is
stored starts its own `/auth/refresh` network call, even when another
caller's refresh is already in flight, and it observes the outcome of its
own refresh call. -/
theorem each_caller_starts_own_refresh (s : Sys) (i : Nat) (t rt : String)
    (o : RefreshOutcome)
    (hi : s.tasks[i]? = some (Phase.fetching (some t)))
    (hr : s.store.refresh = some rt) :
    step s (Event.respond i 401) =
      { s with tasks := s.tasks.set i Phase.refreshing,
               refreshCalls := s.refreshCalls + 1 } ∧
    (step (step s (Event.respond i 401)) (Event.refreshResolve i o)).store =
      (refreshAfterFetch o).2 := by
  have h₁ : step s (Event.respond i 401) =
      { s with tasks := s.tasks.set i Phase.refreshing,
               refreshCalls := s.refreshCalls + 1 } := by
    simp [step, hi, hr]
  refine ⟨h₁, ?_⟩
  rw [h₁]
  have h₂ : (s.tasks.set i Phase.refreshing)[i]? = some Phase.refreshing :=
    lookup_set_self _ _ _ _ hi
  cases hra : refreshAfterFetch o with
  | mk b s₂ => cases b <;> simp [step, h₂, hra]

/-- Witness for `each_caller_starts_own_refresh`: the second caller starts a
second refresh while the first caller's refresh is still in flight. -/
theorem each_caller_starts_own_refresh_witness :
    step twoInFlight (Event.respond 1 401) =
      { twoInFlight with tasks := twoInFlight.tasks.set 1 Phase.refreshing,
                         refreshCalls := twoInFlight.refreshCalls + 1 } ∧
    (step (step twoInFlight (Event.respond 1 401))
        (Event.refreshResolve 1 RefreshOutcome.httpFail)).store =
      (refreshAfterFetch RefreshOutcome.httpFail).2 :=
  each_caller_starts_own_refresh twoInFlight 1 "expired" "r0"
    RefreshOutcome.httpFail (by decide) (by decide)

/-- C2 (counterexample): the claim says a retried request that itself
returns 401 fails with no second refresh attempt.  One request, one 401, a
successful refresh, then a 401 on the retried request: the pipeline starts a
second `/auth/refresh` call instead of failing. -/
theorem single_retry_counterexample :
    (run (initSys 1 demoStore)
        [Event.issue 0, Event.respond 0 401,
         Event.refreshResolve 0 (RefreshOutcome.okTokens "a1" "r1"),
         Event.issue 0, Event.respond 0 401]).refreshCalls = 2 ∧
    ¬(run (initSys 1 demoStore)
        [Event.issue 0, Event.respond 0 401,
         Event.refreshResolve 0 (RefreshOutcome.okTokens "a1" "r1"),
         Event.issue 0, Event.respond 0 401]).refreshCalls ≤ 1 := by
  decide

/-- C2 (amended): on a 401 with a credential attached the pipeline refreshes
and, when the refresh succeeds, re-enters the whole request
(`return this.request(endpoint, options)`); a retried request that itself
returns 401 therefore starts another refresh attempt rather than failing at
once, and the request fails with no further refresh exactly when a refresh
fails, which also clears the store. -/
theorem retried_401_refreshes_again (a r a₂ r₂ : String) :
    (run (initSys 1 (Store.mk (some a) (some r)))
        [Event.issue 0, Event.respond 0 401,
         Event.refreshResolve 0 (RefreshOutcome.okTokens a₂ r₂),
         Event.issue 0, Event.respond 0 401]).refreshCalls = 2 ∧
    (run (initSys 1 (Store.mk (some a) (some r)))
        [Event.issue 0, Event.respond 0 401,
         Event.refreshResolve 0 (RefreshOutcome.okTokens a₂ r₂),
         Event.issue 0, Event.respond 0 401]).tasks = [Phase.refreshing] ∧
    (run (initSys 1 (Store.mk (some a) (some r)))
        [Event.issue 0, Event.respond 0 401,
         Event.refreshResolve 0 RefreshOutcome.httpFail]).tasks =
      [Phase.done ReqResult.failed] ∧
    (run (initSys 1 (Store.mk (some a) (some r)))
        [Event.issue 0, Event.respond 0 401,
         Event.refreshResolve 0 RefreshOutcome.httpFail]).store = Store.empty ∧
    (run (initSys 1 (Store.mk (some a) (some r)))
        [Event.issue 0, Event.respond 0 401,
         Event.refreshResolve 0 RefreshOutcome.httpFail]).refreshCalls = 1 :=
  ⟨rfl, rfl, rfl, rfl, rfl⟩

/-- Witness for `retried_401_refreshes_again` at concrete tokens. -/
theorem retried_401_refreshes_again_witness :
    (run (initSys 1 (Store.mk (some "a") (some "r")))
        [Event.issue 0, Event.respond 0 401,
         Event.refreshResolve 0 (RefreshOutcome.okTokens "a2" "r2"),
         Event.issue 0, Event.respond 0 401]).refreshCalls = 2 :=
  (retried_401_refreshes_again "a" "r" "a2" "r2").1

/-- C5: when an issued refresh fails (transport error, non-ok response, or a
malformed ok body), both tokens end cleared; a call issued afterwards from
the empty store attaches no token and its 401 triggers no refresh call. -/
theorem refresh_failure_clears_and_disables (o : RefreshOutcome) (s : Store)
    (sys : Sys) (i : Nat)
    (hfail : ∀ a r, o ≠ RefreshOutcome.okTokens a r)
    (hrt : s.refresh.isSome = true)
    (hempty : sys.store = Store.empty)
    (hready : sys.tasks[i]? = some Phase.ready) :
    refreshToken o s = (false, Store.empty) ∧
    (run sys [Event.issue i, Event.respond i 401]).refreshCalls =
      sys.refreshCalls ∧
    (run sys [Event.issue i, Event.respond i 401]).tasks[i]? =
      some (Phase.done ReqResult.failed) := by
  obtain ⟨rt, hrt'⟩ := Option.isSome_iff_exists.mp hrt
  constructor
  · rw [refreshToken_split, hrt']
    cases o with
    | okTokens a r => exact absurd rfl (hfail a r)
    | transportError => rfl
    | httpFail => rfl
    | okNoTokens => rfl
  · have h₁ : step sys (Event.issue i) =
        { sys with tasks := sys.tasks.set i (Phase.fetching sys.store.access) } := by
      simp [step, hready]
    have haccess : sys.store.access = none := by rw [hempty]; rfl
    have h₂ : (sys.tasks.set i (Phase.fetching sys.store.access))[i]? =
        some (Phase.fetching none) := by
      rw [haccess]
      exact lookup_set_self _ _ _ _ hready
    have hrun : run sys [Event.issue i, Event.respond i 401] =
        step (step sys (Event.issue i)) (Event.respond i 401) := rfl
    rw [hrun, h₁]
    constructor
    · simp [step, h₂]
    · simp only [step, h₂]
      norm_num
      exact lookup_set_self _ _ _ _ hready

/-- Witness for `refresh_failure_clears_and_disables`: a failing refresh over
a stored pair, and a fresh call over the emptied store. -/
theorem refresh_failure_clears_and_disables_witness :
    refreshToken RefreshOutcome.httpFail demoStore = (false, Store.empty) ∧
    (run (initSys 1 Store.empty)
        [Event.issue 0, Event.respond 0 401]).refreshCalls =
      (initSys 1 Store.empty).refreshCalls ∧
    (run (initSys 1 Store.empty)
        [Event.issue 0, Event.respond 0 401]).tasks[0]? =
      some (Phase.done ReqResult.failed) :=
  refresh_failure_clears_and_disables RefreshOutcome.httpFail demoStore
    (initSys 1 Store.empty) 0
    (fun _ _ h => RefreshOutcome.noConfusion h) rfl rfl rfl

/-- C6: every credential-mutating operation writes or removes both tokens
together: login/register, logout and the failed auth check, `refreshToken`
(success writes the pair, failure clears it, a missing refresh token leaves
the store alone), and every event-loop step.  From a consistent store they
all produce a consistent store. -/
theorem credential_pair_invariant (a r : String) (o : RefreshOutcome)
    (s : Store) (sys : Sys) (e : Event)
    (hs : Store.consistent s) (hsys : Store.consistent sys.store) :
    Store.consistent (loginStore a r) ∧
    Store.consistent logoutStore ∧
    Store.consistent (refreshToken o s).2 ∧
    Store.consistent (step sys e).store := by
  refine ⟨rfl, rfl, ?_, ?_⟩
  · rw [refreshToken_split]
    cases hrt : s.refresh with
    | none => exact hs
    | some rt => exact consistent_refreshAfterFetch o
  · rcases step_store_cases sys e with h | ⟨o₂, h⟩
    · rw [h]; exact hsys
    · rw [h]; exact consistent_refreshAfterFetch o₂

/-- Witness for `credential_pair_invariant` on concrete consistent stores. -/
theorem credential_pair_invariant_witness :
    Store.consistent (loginStore "a" "r") ∧
    Store.consistent logoutStore ∧
    Store.consistent (refreshToken RefreshOutcome.httpFail demoStore).2 ∧
    Store.consistent (step (initSys 1 demoStore) (Event.issue 0)).store :=
  credential_pair_invariant "a" "r" RefreshOutcome.httpFail demoStore
    (initSys 1 demoStore) (Event.issue 0) rfl rfl

/-- C8 (the code at the failing input): with a stored token and caller
options carrying a headers field, the `services/api.ts` request config keeps
only the caller's headers — the Authorization bearer header (and the default
content type) are dropped, because `...options` is spread after the merged
`headers` field.  With no caller headers the bearer header does survive, and
the `App.tsx` variant keeps it alongside the caller's headers. -/
theorem apiTs_headers_drop_auth :
    apiTsConfigHeaders (some "tok") (some [("X-Custom", "1")]) =
      [("X-Custom", "1")] ∧
    mget (apiTsConfigHeaders (some "tok") (some [("X-Custom", "1")]))
      "Authorization" = none ∧
    mget (apiTsConfigHeaders (some "tok") none) "Authorization" =
      some "Bearer tok" ∧
    mget (appHeaders (some "tok") [("X-Custom", "1")]) "Authorization" =
      some "Bearer tok" ∧
    mget (appHeaders (some "tok") [("X-Custom", "1")]) "X-Custom" = some "1" := by
  decide

/-- C9: `refreshToken` never rejects: every throw inside its `try` is caught
and converted to the return value `false` with the store cleared, and it
returns `true` exactly when a refresh token was stored and the exchange
returned a fresh pair — every failure path yields `false`. -/
theorem refreshToken_never_rejects (o : RefreshOutcome) (s : Store) :
    ((refreshToken o s).1 = true ↔
      s.refresh.isSome = true ∧ ∃ a r, o = RefreshOutcome.okTokens a r) ∧
    (∀ e, refreshTryBody o s = Except.error e →
      refreshToken o s = (false, Store.empty)) := by
  cases s with
  | mk acc rt =>
      cases rt <;> cases o <;>
        simp [refreshToken, refreshTryBody, Store.empty]

/-- Witness for `refreshToken_never_rejects`: the transport-error throw is
caught and becomes `false` with a cleared store. -/
theorem refreshToken_never_rejects_witness :
    refreshToken RefreshOutcome.transportError demoStore = (false, Store.empty) :=
  (refreshToken_never_rejects RefreshOutcome.transportError demoStore).2
    JsError.thrown rfl

/-- C10: with no stored refresh token, `refreshToken` returns false at once
from inside the `try`, skipping both the network call and the final clears:
the store — in particular a still-present access token — is unchanged, and
in the pipeline such a 401 resolves to failure with no refresh call counted
and no store mutation. -/
theorem no_refresh_token_is_noop (o : RefreshOutcome) (s : Store) (sys : Sys)
    (i : Nat) (t : String)
    (hnone : s.refresh = none)
    (hsysnone : sys.store.refresh = none)
    (hf : sys.tasks[i]? = some (Phase.fetching (some t))) :
    refreshToken o s = (false, s) ∧
    (step sys (Event.respond i 401)).refreshCalls = sys.refreshCalls ∧
    (step sys (Event.respond i 401)).store = sys.store ∧
    (step sys (Event.respond i 401)).tasks[i]? =
      some (Phase.done ReqResult.failed) := by
  refine ⟨by rw [refreshToken_split, hnone], ?_, ?_, ?_⟩
  · simp [step, hf, hsysnone]
  · simp [step, hf, hsysnone]
  · simp only [step, hf]
    norm_num [hsysnone]
    exact lookup_set_self _ _ _ _ hf

/-- Witness for `no_refresh_token_is_noop`: an access token without a
refresh token survives the call, and the 401 resolves with no refresh. -/
theorem no_refresh_token_is_noop_witness :
    refreshToken RefreshOutcome.httpFail (Store.mk (some "stale") none) =
      (false, Store.mk (some "stale") none) ∧
    (step orphanAccessSys (Event.respond 0 401)).refreshCalls =
      orphanAccessSys.refreshCalls ∧
    (step orphanAccessSys (Event.respond 0 401)).store = orphanAccessSys.store ∧
    (step orphanAccessSys (Event.respond 0 401)).tasks[0]? =
      some (Phase.done ReqResult.failed) :=
  no_refresh_token_is_noop RefreshOutcome.httpFail
    (Store.mk (some "stale") none) orphanAccessSys 0 "stale" rfl rfl rfl

end StockMarket
